import Mathlib

/-!
# Verification of the AioMK8DX client library

A shallow embedding of the core of the AioMK8DX repository (a Python client
for the MK8DX lounge leaderboard API): the JSON payload model, the domain
mappers (`_ChangeBase`/`Bonus`/`Penalty`, `Table`/`Team`/`Score`, `Player`,
`PartialPlayer`, `LeaderBoardPlayer`, `LeaderBoard`, `Rank`, `Search`), the
memoization cache (`Cache` and the `caching_property` wrapper), and the
facade client's request-assembly and response post-processing
(`get_player`, `get_player_details`, the list endpoints, `_fetch_many`).

Python values are embedded as explicit inductives; Python `dict` payloads
are association lists in insertion order; fallible Python code (subscript
errors, type errors) returns `Except PyErr`.  Datetimes are modelled by
their ISO-8601 wire string (`dateutil.isoparse` wraps the string,
`datetime.isoformat` unwraps it); none of the verified properties depends
on the internal structure of a parsed datetime.
-/

set_option autoImplicit false

namespace AioMK

/-- Python exceptions raised by the embedded fragment
(`connectionError` stands for an `aiohttp` transport-level failure). -/
inductive PyErr where
  | keyError (key : String)
  | typeError
  | attributeError
  | connectionError
  deriving DecidableEq, Repr

/-- The JSON values that appear in API payloads (no floats are needed by
the verified properties). -/
inductive JVal where
  | null
  | bool (b : Bool)
  | int (n : Int)
  | str (s : String)
  | arr (xs : List JVal)
  | obj (fields : List (String × JVal))

/-- First-match association lookup over the fields of a JSON object,
modelling Python `dict` key lookup (keys are unique in a `dict`). -/
def jlookup : List (String × JVal) → String → Option JVal
  | [], _ => none
  | (k, v) :: rest, key => if k = key then some v else jlookup rest key

/-- Python `data[key]` (subscript): `KeyError` on a missing key,
`TypeError` when the receiver is not a dict. -/
def JVal.getItem : JVal → String → Except PyErr JVal
  | .obj fs, k =>
    match jlookup fs k with
    | some v => .ok v
    | none => .error (.keyError k)
  | _, _ => .error .typeError

/-- Python `data.get(key)`: `None` (here `JVal.null`) on a missing key,
`AttributeError` when the receiver is not a dict. -/
def JVal.getOpt : JVal → String → Except PyErr JVal
  | .obj fs, k => .ok ((jlookup fs k).getD .null)
  | _, _ => .error .attributeError

/-- Python `data.get(key, default)` with a list default, used for
list-valued optional payload fields. -/
def JVal.getListD : JVal → String → List JVal → Except PyErr (List JVal)
  | .obj fs, k, d =>
    match jlookup fs k with
    | some (.arr xs) => .ok xs
    | some _ => .error .typeError
    | none => .ok d
  | _, _, _ => .error .attributeError

/-- Python truthiness of an embedded JSON value. -/
def JVal.truthy : JVal → Bool
  | .null => false
  | .bool b => b
  | .int n => decide (n ≠ 0)
  | .str s => decide (s ≠ "")
  | .arr xs => !xs.isEmpty
  | .obj fs => !fs.isEmpty

/-- Iterating a payload value (`for x in data`): only arrays are iterable
here; anything else is a `TypeError`. -/
def JVal.asArr : JVal → Except PyErr (List JVal)
  | .arr xs => .ok xs
  | _ => .error .typeError

/-- A parsed datetime, modelled by the ISO-8601 string it was parsed from:
`dateutil.parser.isoparse` wraps the wire string and `datetime.isoformat`
returns it. -/
structure DT where
  iso : String
  deriving DecidableEq, Repr

/-- `dateutil.parser.isoparse` applied to a payload value: parsing a
non-string raises `TypeError`. -/
def isoparseJ : JVal → Except PyErr DT
  | .str s => .ok ⟨s⟩
  | _ => .error .typeError

/-- Python `str.capitalize`: first character upper-cased, the rest
lower-cased. -/
def pyCapitalize (s : String) : String :=
  match s.data with
  | [] => ""
  | c :: cs => String.mk (c.toUpper :: cs.map Char.toLower)

/-- Python `str.split("_")` at the character level: split at every
underscore (`"".split("_") == [""]`, and consecutive separators yield
empty words, exactly as in Python). -/
def splitUnd : List Char → List (List Char)
  | [] => [[]]
  | c :: rest =>
    match splitUnd rest with
    | [] => [[]]
    | w :: ws => if c = '_' then [] :: w :: ws else (c :: w) :: ws

/-- `aiomk8dx/utils.py` `_to_camel`:
`"".join(word.capitalize() for word in string.split("_"))`. -/
def toCamel (s : String) : String :=
  String.join ((splitUnd s.data).map (fun w => pyCapitalize (String.mk w)))

/-! ## `aiomk_api/change.py`: `_ChangeBase`, `Bonus`, `Penalty`

The record fields mirror the `__slots__`; fields the Python code stores
raw from the payload are `JVal`, fields it passes through `isoparse` are
`DT`/`Option DT`. -/

/-- The `_ChangeBase` record (`Bonus` adds nothing to it). -/
structure ChangeRec where
  id : JVal
  season : JVal
  awarded_on : DT
  prev_mmr : JVal
  new_mmr : JVal
  amount : JVal
  deleted_on : Option DT
  player_id : JVal
  player_name : JVal

/-- `_ChangeBase._update` (also `Bonus.__init__`): required keys are read
with subscripting; `deleted_on` is
`isoparse(data["deletedOn"]) if data["deletedOn"] else None`. -/
def changeUpdate (data : JVal) : Except PyErr ChangeRec := do
  let i ← data.getItem "id"
  let season ← data.getItem "season"
  let awarded ← data.getItem "awardedOn" >>= isoparseJ
  let prevMmr ← data.getItem "prevMmr"
  let newMmr ← data.getItem "newMmr"
  let amount ← data.getItem "amount"
  let deletedRaw ← data.getItem "deletedOn"
  let deleted ←
    if deletedRaw.truthy then (isoparseJ deletedRaw).map some else pure none
  let playerId ← data.getItem "playerId"
  let playerName ← data.getItem "playerName"
  return ⟨i, season, awarded, prevMmr, newMmr, amount, deleted, playerId, playerName⟩

/-- `_ChangeBase.to_dict` (also `Bonus.to_dict`): iterates the attribute
names in slot order and emits each under `_to_camel(attr)`; datetimes go
through `isoformat`, a `None` datetime is emitted as `null`. -/
def changeToDict (r : ChangeRec) : JVal :=
  .obj [
    (toCamel "id", r.id),
    (toCamel "season", r.season),
    (toCamel "awarded_on", .str r.awarded_on.iso),
    (toCamel "prev_mmr", r.prev_mmr),
    (toCamel "new_mmr", r.new_mmr),
    (toCamel "amount", r.amount),
    (toCamel "deleted_on",
      match r.deleted_on with
      | some d => .str d.iso
      | none => .null),
    (toCamel "player_id", r.player_id),
    (toCamel "player_name", r.player_name)
  ]

/-- The `Penalty` record: `_ChangeBase` plus the strike flag read in
`Penalty.__init__` (`self.is_strike = data["isStrike"]`). -/
structure PenaltyRec where
  base : ChangeRec
  is_strike : JVal

/-- `Penalty.__init__`. -/
def penaltyNew (data : JVal) : Except PyErr PenaltyRec := do
  let base ← changeUpdate data
  let strike ← data.getItem "isStrike"
  return ⟨base, strike⟩

/-! ## `aiomk_api/table.py`: `Score`, `Team`, `Table` -/

/-- The `Score` record. -/
structure ScoreRec where
  score : JVal
  multiplier : JVal
  player_id : JVal
  player_name : JVal
  player_discord_id : JVal
  player_country_code : JVal
  delta : JVal
  prev_mmr : JVal
  new_mmr : JVal

/-- `Score._update`: four required subscripted keys, the rest via
`data.get` (absent maps to `None`). -/
def scoreUpdate (data : JVal) : Except PyErr ScoreRec := do
  let score ← data.getItem "score"
  let multiplier ← data.getItem "multiplier"
  let playerId ← data.getItem "playerId"
  let playerName ← data.getItem "playerName"
  let discord ← data.getOpt "playerDiscordId"
  let country ← data.getOpt "playerCountryCode"
  let delta ← data.getOpt "delta"
  let prevMmr ← data.getOpt "prevMmr"
  let newMmr ← data.getOpt "newMmr"
  return ⟨score, multiplier, playerId, playerName, discord, country, delta, prevMmr, newMmr⟩

/-- `Score.to_dict`:
`{_to_camel(attr): getattr(self, attr) for attr in self.__slots__}`. -/
def scoreToDict (r : ScoreRec) : JVal :=
  .obj [
    (toCamel "score", r.score),
    (toCamel "multiplier", r.multiplier),
    (toCamel "player_id", r.player_id),
    (toCamel "player_name", r.player_name),
    (toCamel "player_discord_id", r.player_discord_id),
    (toCamel "player_country_code", r.player_country_code),
    (toCamel "delta", r.delta),
    (toCamel "prev_mmr", r.prev_mmr),
    (toCamel "new_mmr", r.new_mmr)
  ]

/-- The `Team` record. -/
structure TeamRec where
  rank : JVal
  scores : List ScoreRec

/-- `Team._update`. -/
def teamUpdate (data : JVal) : Except PyErr TeamRec := do
  let rank ← data.getItem "rank"
  let scoresRaw ← data.getItem "scores" >>= JVal.asArr
  let scores ← scoresRaw.mapM scoreUpdate
  return ⟨rank, scores⟩

/-- The `Table` record. -/
structure TableRec where
  id : JVal
  score : JVal
  created_on : DT
  verified_on : Option DT
  deleted_on : Option DT
  num_teams : JVal
  url : JVal
  tier : JVal
  teams : List TeamRec
  table_message_id : JVal
  update_message_id : JVal
  author_id : JVal

/-- `Table._update`: `verified_on` and `deleted_on` are
`isoparse(data[k]) if data.get(k) else None`, so a missing or null key
yields `None`; `created_on` is required. -/
def tableUpdate (data : JVal) : Except PyErr TableRec := do
  let i ← data.getItem "id"
  let score ← data.getItem "score"
  let created ← data.getItem "createdOn" >>= isoparseJ
  let verifiedRaw ← data.getOpt "verifiedOn"
  let verified ←
    if verifiedRaw.truthy then (data.getItem "verifiedOn" >>= isoparseJ).map some
    else pure none
  let deletedRaw ← data.getOpt "deletedOn"
  let deleted ←
    if deletedRaw.truthy then (data.getItem "deletedOn" >>= isoparseJ).map some
    else pure none
  let numTeams ← data.getItem "numTeams"
  let url ← data.getItem "url"
  let tier ← data.getItem "tier"
  let teamsRaw ← data.getItem "teams" >>= JVal.asArr
  let teams ← teamsRaw.mapM teamUpdate
  let tableMsg ← data.getOpt "tableMessageId"
  let updateMsg ← data.getOpt "updateMessageId"
  let author ← data.getOpt "authorId"
  return ⟨i, score, created, verified, deleted, numTeams, url, tier, teams,
    tableMsg, updateMsg, author⟩

/-! ## Python `==` on payload values

Needed because the entity `__eq__` methods compare payload-derived
attributes with Python `==`: structural on scalars (with `bool`/`int`
cross-comparison, since Python `bool` is an `int` subtype), element-wise
on lists, and key-insensitive-to-order on dicts. -/

mutual

/-- Python `==` on embedded JSON values. -/
def jeqB : JVal → JVal → Bool
  | .null, .null => true
  | .bool a, .bool b => a == b
  | .bool a, .int b => (if a then (1 : Int) else 0) == b
  | .int a, .bool b => a == (if b then (1 : Int) else 0)
  | .int a, .int b => a == b
  | .str a, .str b => a == b
  | .arr xs, .arr ys => jeqArrB xs ys
  | .obj fs, .obj gs => fs.length == gs.length && jeqObjSubB fs gs
  | _, _ => false

/-- Python `==` on lists: same length, pairwise equal. -/
def jeqArrB : List JVal → List JVal → Bool
  | [], [] => true
  | x :: xs, y :: ys => jeqB x y && jeqArrB xs ys
  | _, _ => false

/-- Every field of the first dict is present in the second with `==`
value (with equal sizes this is Python dict equality). -/
def jeqObjSubB : List (String × JVal) → List (String × JVal) → Bool
  | [], _ => true
  | (k, v) :: rest, gs =>
    (match jlookup gs k with
     | some w => jeqB v w
     | none => false) && jeqObjSubB rest gs

end

/-! ## `aiomk_api/player.py`: `Player`, `PartialPlayer`, `LeaderBoardPlayer` -/

/-- The `Player` record (`_MinimalPlayer` fields first). -/
structure PlayerRec where
  name : JVal
  mmr : JVal
  id : JVal
  mkc_id : JVal
  discord_id : JVal
  country_code : JVal
  switch_fc : JVal
  is_hidden : JVal
  max_mmr : JVal

/-- `Player._update` (and the `_MinimalPlayer._update` it calls first). -/
def playerNew (data : JVal) : Except PyErr PlayerRec := do
  let name ← data.getItem "name"
  let mmr ← data.getOpt "mmr"
  let i ← data.getItem "id"
  let mkcId ← data.getItem "mkcId"
  let discord ← data.getOpt "discordId"
  let country ← data.getOpt "countryCode"
  let switch ← data.getOpt "switchFc"
  let hidden ← data.getItem "isHidden"
  let maxMmr ← data.getOpt "maxMmr"
  return ⟨name, mmr, i, mkcId, discord, country, switch, hidden, maxMmr⟩

/-- The `PartialPlayer` record. -/
structure PartialPlayerRec where
  name : JVal
  mmr : JVal
  mkc_id : JVal
  events_played : JVal
  discord_id : JVal

/-- `PartialPlayer._update`. -/
def partialPlayerNew (data : JVal) : Except PyErr PartialPlayerRec := do
  let name ← data.getItem "name"
  let mmr ← data.getOpt "mmr"
  let mkcId ← data.getItem "mkcId"
  let events ← data.getItem "eventsPlayed"
  let discord ← data.getOpt "discordId"
  return ⟨name, mmr, mkcId, events, discord⟩

/-- The `LeaderBoardPlayer` record. -/
structure LBPlayerRec where
  name : JVal
  mmr : JVal
  id : JVal
  wins_last_ten : JVal
  losses_last_ten : JVal
  events_played : JVal
  overall_rank : JVal
  country_code : JVal
  max_mmr : JVal
  win_rate : JVal
  gain_loss_last_ten : JVal
  largest_gain : JVal
  largest_loss : JVal
  max_rank : JVal
  max_mmr_rank : JVal

/-- `LeaderBoardPlayer._update`. -/
def lbpNew (data : JVal) : Except PyErr LBPlayerRec := do
  let name ← data.getItem "name"
  let mmr ← data.getOpt "mmr"
  let i ← data.getItem "id"
  let wins ← data.getItem "winsLastTen"
  let losses ← data.getItem "lossesLastTen"
  let events ← data.getItem "eventsPlayed"
  let overall ← data.getOpt "overallRank"
  let country ← data.getOpt "countryCode"
  let maxMmr ← data.getOpt "maxMmr"
  let winRate ← data.getOpt "winRate"
  let gainLoss ← data.getOpt "gainLossLastTen"
  let largestGain ← data.getOpt "largestGain"
  let largestLoss ← data.getOpt "largestLoss"
  let maxRank ← data.getOpt "maxRank"
  let maxMmrRank ← data.getOpt "maxMmrRank"
  return ⟨name, mmr, i, wins, losses, events, overall, country, maxMmr,
    winRate, gainLoss, largestGain, largestLoss, maxRank, maxMmrRank⟩

/-- `LeaderBoardPlayer.__eq__`: identity is the `id` attribute alone
(`isinstance(__value, LeaderBoardPlayer) and __value.id == self.id`). -/
def lbpEqB (p q : LBPlayerRec) : Bool :=
  jeqB q.id p.id

/-- Python list `==` on `LeaderBoardPlayer` lists: same length, pairwise
`LeaderBoardPlayer.__eq__`. -/
def lbpListEqB : List LBPlayerRec → List LBPlayerRec → Bool
  | [], [] => true
  | p :: ps, q :: qs => lbpEqB p q && lbpListEqB ps qs
  | _, _ => false

/-! ## `aiomk8dx/leaderboard.py` (and `aiomk_api/leaderboard.py`):
`LeaderBoard` -/

/-- The `LeaderBoard` record. -/
structure LBRec where
  total_players : JVal
  data : List LBPlayerRec

/-- `LeaderBoard._update`. -/
def lbUpdate (payload : JVal) : Except PyErr LBRec := do
  let total ← payload.getItem "totalPlayers"
  let raw ← payload.getItem "data" >>= JVal.asArr
  let players ← raw.mapM lbpNew
  return ⟨total, players⟩

/-- `LeaderBoard.__eq__`:
`isinstance(__value, LeaderBoard) and self.data == __value.data` —
`total_players` is not consulted. -/
def lbEqB (a b : LBRec) : Bool :=
  lbpListEqB a.data b.data

/-- Modelled from the spec: `aiomk8dx/player.py` (the `LeaderBoardPlayer`
that `aiomk8dx/leaderboard.py` imports, whose `copy` is invoked by
`LeaderBoard._create`) is not among the provided sources.  Per the spec's
value-record semantics — entities are immutable value records and slicing
yields entries equal to the source's selection — `copy` produces a fresh
record carrying the same field values. -/
def lbpCopy (p : LBPlayerRec) : LBPlayerRec :=
  ⟨p.name, p.mmr, p.id, p.wins_last_ten, p.losses_last_ten,
    p.events_played, p.overall_rank, p.country_code, p.max_mmr,
    p.win_rate, p.gain_loss_last_ten, p.largest_gain, p.largest_loss,
    p.max_rank, p.max_mmr_rank⟩

/-- `LeaderBoard._create`: `total_players` is set to `len(players)` and
`data` to per-player copies. -/
def lbCreate (players : List LBPlayerRec) : LBRec :=
  ⟨.int players.length, players.map lbpCopy⟩

/-- One bound of a Python step-1 slice, after `slice.indices(len)`
normalisation: negative indices count from the end (clamped at 0),
non-negative ones are clamped at the length. -/
def pySliceIdx (len : Nat) (i : Int) : Nat :=
  if i < 0 then ((len : Int) + i).toNat else min i.toNat len

/-- Python list slicing `l[start:stop]` (step 1). -/
def pySlice {α : Type} (l : List α) (start? stop? : Option Int) : List α :=
  let s := match start? with
    | none => 0
    | some i => pySliceIdx l.length i
  let e := match stop? with
    | none => l.length
    | some i => pySliceIdx l.length i
  (l.drop s).take (e - s)

/-- `LeaderBoard.__getitem__` on a slice:
`LeaderBoard._create(self.data[__index])`. -/
def lbGetSlice (lb : LBRec) (start? stop? : Option Int) : LBRec :=
  lbCreate (pySlice lb.data start? stop?)

/-! ## `aiomk_api/utils.py`: `Search` -/

/-- The primitive Python values passed as constructor/query arguments
(`Union[int, str, None]`, plus `bool` for flags). -/
inductive PyVal where
  | none
  | bool (b : Bool)
  | int (n : Int)
  | str (s : String)
  deriving DecidableEq, Repr

/-- Python truthiness of a primitive argument value. -/
def PyVal.truthy : PyVal → Bool
  | .none => false
  | .bool b => b
  | .int n => decide (n ≠ 0)
  | .str s => decide (s ≠ "")

/-- Python `str()` / f-string interpolation of a primitive value. -/
def PyVal.interp : PyVal → String
  | .none => "None"
  | .bool b => if b then "True" else "False"
  | .int n => toString n
  | .str s => s

/-- The `Search` query-builder record. -/
structure Search where
  mkc_id : PyVal
  discord_id : PyVal
  switch_fc : PyVal

/-- `Search.query`: an if/elif chain on *truthiness* — the first truthy
value among `mkc_id`, `discord_id` wins, and the `else` branch always
interpolates `switch_fc` (even when it is `None`). -/
def searchQuery (s : Search) : String :=
  if s.mkc_id.truthy then "mkc=" ++ s.mkc_id.interp
  else if s.discord_id.truthy then "discord=" ++ s.discord_id.interp
  else "switch=" ++ s.switch_fc.interp

/-! ## `aiomk_api/cache.py`: `Cache` and `caching_property`

`Key: TypeAlias = tuple[tuple[Any, ...], frozenset[tuple[str, Any]], str]`.
The `data` dict is embedded as an association list with unique keys
(`sput` replaces an existing binding, as dict assignment does). -/

/-- The cache key: positional arguments, the `frozenset` of keyword
items, and the wrapped coroutine's `__qualname__`. -/
structure CacheKey where
  args : List PyVal
  kwargs : Finset (String × PyVal)
  qualname : String
  deriving DecidableEq

/-- `(args, frozenset(kwargs.items()), coro.__qualname__)` — the key the
`caching_property` wrapper computes, from the keyword items in whatever
order the call supplied them. -/
def mkKey (args : List PyVal) (kwargs : List (String × PyVal))
    (qualname : String) : CacheKey :=
  ⟨args, kwargs.toFinset, qualname⟩

/-- The backing store of `Cache.data`. -/
def Store (V : Type) : Type := List (CacheKey × V)

/-- Dict key lookup (`key in data` / `data[key]`). -/
def sfind {V : Type} : Store V → CacheKey → Option V
  | [], _ => Option.none
  | (k, v) :: rest, key => if k = key then some v else sfind rest key

/-- Dict assignment `data[key] = value` (`Cache.put`): replace an
existing binding or append a new one. -/
def sput {V : Type} : Store V → CacheKey → V → Store V
  | [], key, v => [(key, v)]
  | (k, w) :: rest, key, v =>
    if k = key then (k, v) :: rest else (k, w) :: sput rest key v

/-- The outcome of one call through the `caching_property` wrapper:
the returned value, the store afterwards, and how many times the wrapped
operation was invoked (0 on a hit, 1 on a miss). -/
structure CallResult (V : Type) where
  value : V
  store : Store V
  invocations : Nat

/-- The `caching_property` wrapper body: if the key is in
`client._cache.data` return the stored value (even a stored `None`)
without invoking the wrapped operation; otherwise invoke it once, store
the result, and return it.  `compute` is the value the wrapped coroutine
would produce on this call. -/
def cachedCall {V : Type} (store : Store V) (key : CacheKey) (compute : V) :
    CallResult V :=
  match sfind store key with
  | some v => ⟨v, store, 0⟩
  | Option.none => ⟨compute, sput store key compute, 1⟩

/-- A `Cache` instance.  In `class Cache`, `data: dict[Key, Any] = {}` is
a *class attribute* — the dict is created once when the class body runs —
and no code ever assigns an instance attribute named `data`, so attribute
lookup on every instance resolves to that single class-level dict (held
in `ProcState` below).  Instances are distinguished only by object
identity, which none of the embedded operations consults. -/
structure CacheObj where
  ident : Nat

/-- `Cache()`: the class defines no `__init__`, so construction adds no
per-instance state. -/
def cacheNew (ident : Nat) : CacheObj := ⟨ident⟩

/-- The process-level state: the one dict bound to `Cache.data`. -/
structure ProcState (V : Type) where
  cacheClassData : Store V

/-- The state right after `class Cache` is defined: `data = {}`. -/
def procInit (V : Type) : ProcState V := ⟨[]⟩

/-- Attribute lookup `inst.data`: the instance has no instance attribute
`data`, so it resolves to the class attribute. -/
def cacheGetData {V : Type} (proc : ProcState V) (_c : CacheObj) : Store V :=
  proc.cacheClassData

/-- `Cache.put(self, key, value)` = `self.data[key] = value`: mutates the
dict `self.data` resolves to — the shared class dict. -/
def cachePut {V : Type} (proc : ProcState V) (c : CacheObj) (k : CacheKey)
    (v : V) : ProcState V :=
  ⟨sput (cacheGetData proc c) k v⟩

/-- An `AioMKClient` as far as caching is concerned:
`AioMKClient.__init__` sets `self._cache = Cache()`. -/
structure ClientObj where
  cache : CacheObj

/-- `AioMKClient(http=...)` without an injected cache. -/
def clientNew (ident : Nat) : ClientObj := ⟨cacheNew ident⟩

/-! ## `aiomk_api/client.py`: the facade methods

A transport is a function from endpoint and query parameters to the
decoded JSON of a 200 response, or `none` for any non-200 status
(`HttpClient.get`).  Each `...Run` definition returns the method's result
paired (for the single-entity lookups) with the number of transport
requests issued. -/

/-- `AioMKClient._fetch`: absence stays `None`, a payload is passed to
the entity constructor. -/
def fetchWith {α : Type} (cls : JVal → Except PyErr α) :
    Option JVal → Except PyErr (Option α)
  | Option.none => .ok Option.none
  | some d => (cls d).map some

/-- The query-parameter assembly of `AioMKClient.get_player`: the
if/elif chain over `id`, `name`, `mkc_id`, `discord_id`, `fc` (first
non-`None` wins), with `else: return None`; `season` is appended
afterwards but is not an identifying parameter. -/
def getPlayerParams (id? : Option Int) (name? : Option String)
    (mkcId? : Option Int) (discordId? : Option Int) (fc? : Option String)
    (season? : Option Int) : Option (List (String × PyVal)) :=
  let base : Option (List (String × PyVal)) :=
    match id? with
    | some i => some [("id", .int i)]
    | Option.none =>
      match name? with
      | some n => some [("name", .str n)]
      | Option.none =>
        match mkcId? with
        | some m => some [("mkcId", .int m)]
        | Option.none =>
          match discordId? with
          | some d => some [("discordId", .int d)]
          | Option.none =>
            match fc? with
            | some f => some [("fc", .str f)]
            | Option.none => Option.none
  base.map fun ps =>
    match season? with
    | some s => ps ++ [("season", .int s)]
    | Option.none => ps

/-- `AioMKClient.get_player`: short-circuits to `None` without any
transport request when no identifying parameter is given, otherwise
issues one GET to `"player"` and maps the payload. -/
def getPlayerRun (transport : String → List (String × PyVal) → Option JVal)
    (id? : Option Int) (name? : Option String) (mkcId? : Option Int)
    (discordId? : Option Int) (fc? : Option String) (season? : Option Int) :
    Except PyErr (Option PlayerRec) × Nat :=
  match getPlayerParams id? name? mkcId? discordId? fc? season? with
  | Option.none => (.ok Option.none, 0)
  | some ps => (fetchWith playerNew (transport "player" ps), 1)

/-- The query-parameter assembly of `AioMKClient.get_player_details`:
identifying parameters are `id` then `name`. -/
def getPlayerDetailsParams (id? : Option Int) (name? : Option String)
    (season? : Option Int) : Option (List (String × PyVal)) :=
  let base : Option (List (String × PyVal)) :=
    match id? with
    | some i => some [("id", .int i)]
    | Option.none =>
      match name? with
      | some n => some [("name", .str n)]
      | Option.none => Option.none
  base.map fun ps =>
    match season? with
    | some s => ps ++ [("season", .int s)]
    | Option.none => ps

/-- `AioMKClient.get_player_details` (the payload is mapped by
`PlayerDetails`, whose identity is irrelevant to the short-circuit
behaviour; the mapper is a parameter). -/
def getPlayerDetailsRun {α : Type} (cls : JVal → Except PyErr α)
    (transport : String → List (String × PyVal) → Option JVal)
    (id? : Option Int) (name? : Option String) (season? : Option Int) :
    Except PyErr (Option α) × Nat :=
  match getPlayerDetailsParams id? name? season? with
  | Option.none => (.ok Option.none, 0)
  | some ps => (fetchWith cls (transport "player/details" ps), 1)

/-- An optional int query parameter contributed by an
`if x is not None: params[k] = x` line. -/
def optIntParam (k : String) : Option Int → List (String × PyVal)
  | some n => [(k, .int n)]
  | Option.none => []

/-- An optional ISO-datetime query parameter
(`params[k] = dt.isoformat()`). -/
def optDtParam (k : String) : Option DT → List (String × PyVal)
  | some d => [(k, .str d.iso)]
  | Option.none => []

/-- `AioMKClient.get_player_list`: on absence returns `[]`, otherwise
maps `data["players"]` through `PartialPlayer`. -/
def getPlayerListRun (transport : String → List (String × PyVal) → Option JVal)
    (minMmr? maxMmr? season? : Option Int) :
    Except PyErr (List PartialPlayerRec) :=
  let ps := optIntParam "minMmr" minMmr? ++ optIntParam "maxMmr" maxMmr?
    ++ optIntParam "season" season?
  match transport "player/list" ps with
  | Option.none => .ok []
  | some d => do
    let players ← d.getItem "players" >>= JVal.asArr
    players.mapM partialPlayerNew

/-- `AioMKClient.get_tables`: on absence returns `[]`, otherwise the
response array maps through `Table`. -/
def getTablesRun (transport : String → List (String × PyVal) → Option JVal)
    (after? before? : Option DT) (season? : Option Int) :
    Except PyErr (List TableRec) :=
  let ps := optDtParam "from" after? ++ optDtParam "to" before?
    ++ optIntParam "season" season?
  match transport "table/list" ps with
  | Option.none => .ok []
  | some d => d.asArr >>= fun xs => xs.mapM tableUpdate

/-- `AioMKClient.get_table_unverified`. -/
def getTableUnverifiedRun
    (transport : String → List (String × PyVal) → Option JVal)
    (season? : Option Int) : Except PyErr (List TableRec) :=
  let ps := optIntParam "season" season?
  match transport "table/unverified" ps with
  | Option.none => .ok []
  | some d => d.asArr >>= fun xs => xs.mapM tableUpdate

/-- `AioMKClient.get_bonuses`. -/
def getBonusesRun (transport : String → List (String × PyVal) → Option JVal)
    (name : String) (season? : Option Int) : Except PyErr (List ChangeRec) :=
  let ps := [("name", PyVal.str name)] ++ optIntParam "season" season?
  match transport "bonus/list" ps with
  | Option.none => .ok []
  | some d => d.asArr >>= fun xs => xs.mapM changeUpdate

/-- `AioMKClient.get_penalties`. -/
def getPenaltiesRun (transport : String → List (String × PyVal) → Option JVal)
    (name : String) (isStrike? : Option Bool) (after? : Option DT)
    (includeDeleted : Bool) (season? : Option Int) :
    Except PyErr (List PenaltyRec) :=
  let ps := [("name", PyVal.str name), ("includeDeleted", .bool includeDeleted)]
    ++ (match isStrike? with
        | some b => [("isStrike", PyVal.bool b)]
        | Option.none => [])
    ++ optDtParam "from" after? ++ optIntParam "season" season?
  match transport "penalty/list" ps with
  | Option.none => .ok []
  | some d => d.asArr >>= fun xs => xs.mapM penaltyNew

/-! ## `_fetch_many` with `return_exceptions=True` -/

/-- A value a gathered transport leg hands to the post-processing
comprehension when `return_exceptions=True`: either decoded JSON (from a
200 response) or the captured exception object itself. -/
inductive PyObj where
  | j (v : JVal)
  | exc (e : PyErr)

/-- Applying an entity constructor to a gathered slot value: a captured
exception object is not a dict, so the constructor's first subscript
(`data["..."]`) raises `TypeError`. -/
def pyObjNew {α : Type} (cls : JVal → Except PyErr α) :
    PyObj → Except PyErr α
  | .j v => cls v
  | .exc _ => .error .typeError

/-- `asyncio.gather(*tasks, return_exceptions=True)`: each leg yields its
decoded JSON, `None` for a non-200 response, or its captured exception in
place. -/
def gatherRE (legs : List (Except PyErr (Option JVal))) : List (Option PyObj) :=
  legs.map fun l =>
    match l with
    | .ok Option.none => Option.none
    | .ok (some v) => some (.j v)
    | .error e => some (.exc e)

/-- The `_fetch_many` result comprehension:
`[cls(data) if data is not None else None for data in results]` —
evaluated left to right; a captured exception is *not* `None`, so it is
passed to `cls`, and a raised error aborts the whole call. -/
def fetchManyPost {α : Type} (cls : JVal → Except PyErr α)
    (results : List (Option PyObj)) : Except PyErr (List (Option α)) :=
  results.mapM fun d =>
    match d with
    | Option.none => pure Option.none
    | some o => (pyObjNew cls o).map some

/-- `AioMKClient._fetch_many` with `return_exceptions=True`: gather the
per-slot transport outcomes, then run the comprehension. -/
def fetchManyRE {α : Type} (cls : JVal → Except PyErr α)
    (legs : List (Except PyErr (Option JVal))) :
    Except PyErr (List (Option α)) :=
  fetchManyPost cls (gatherRE legs)

/-! ## Concrete wire fixtures used by the theorems -/

/-- A representative valid `_ChangeBase` (`Bonus`) payload; the
`deletedOn` key is included with the given value, or omitted entirely
when `deleted?` is `none`. -/
def changePayloadW (deleted? : Option JVal) : JVal :=
  .obj ([("id", .int 1), ("season", .int 8),
    ("awardedOn", .str "2023-01-01T00:00:00"), ("prevMmr", .int 1000),
    ("newMmr", .int 1100), ("amount", .int 100)]
    ++ (match deleted? with
        | some v => [("deletedOn", v)]
        | Option.none => [])
    ++ [("playerId", .int 5), ("playerName", .str "A")])

/-- The record `changePayloadW (some .null)` maps to. -/
def changeRecW : ChangeRec :=
  ⟨.int 1, .int 8, ⟨"2023-01-01T00:00:00"⟩, .int 1000, .int 1100,
    .int 100, Option.none, .int 5, .str "A"⟩

/-- A representative valid `Table` payload; each optional timestamp key
is included with the given value, or omitted entirely when `none`. -/
def tablePayloadW (verified? deleted? : Option JVal) : JVal :=
  .obj ([("id", .int 17), ("score", .int 492),
    ("createdOn", .str "2023-01-01T00:00:00")]
    ++ (match verified? with
        | some v => [("verifiedOn", v)]
        | Option.none => [])
    ++ (match deleted? with
        | some v => [("deletedOn", v)]
        | Option.none => [])
    ++ [("numTeams", .int 2), ("url", .str "https://example"),
        ("tier", .str "A"), ("teams", .arr [])])

/-- A representative valid `Player` payload. -/
def playerPayloadW : JVal :=
  .obj [("name", .str "Azure_mk"), ("mmr", .int 12000), ("id", .int 355),
    ("mkcId", .int 9000), ("isHidden", .bool false)]

/-- The record `playerPayloadW` maps to. -/
def playerRecW : PlayerRec :=
  ⟨.str "Azure_mk", .int 12000, .int 355, .int 9000, .null, .null, .null,
    .bool false, .null⟩

/-! ## Helper lemmas on the cache store -/

theorem sfind_sput_self {V : Type} (s : Store V) (k : CacheKey) (v : V) :
    sfind (sput s k v) k = some v := by
  induction s with
  | nil => simp [sput, sfind]
  | cons hd tl ih =>
    obtain ⟨k', w⟩ := hd
    by_cases h : k' = k
    · simp [sput, sfind, h]
    · simp [sput, sfind, h, ih]

theorem sfind_sput_ne {V : Type} (s : Store V) (k k' : CacheKey) (v : V)
    (h : k' ≠ k) : sfind (sput s k v) k' = sfind s k' := by
  have h' : ¬k = k' := fun hh => h hh.symm
  induction s with
  | nil => simp [sput, sfind, h']
  | cons hd tl ih =>
    obtain ⟨k0, w⟩ := hd
    by_cases h0 : k0 = k
    · subst h0
      simp [sput, sfind, h']
    · simp [sput, sfind, h0, ih]

theorem mkKey_perm (args : List PyVal) (l1 l2 : List (String × PyVal))
    (q : String) (h : l1.Perm l2) : mkKey args l1 q = mkKey args l2 q := by
  have hm : l1.toFinset = l2.toFinset :=
    congrArg Multiset.toFinset (Multiset.coe_eq_coe.mpr h)
  unfold mkKey
  rw [hm]

/-! ## Claim theorems -/

/-- C1: the claim says every entity serializes back to exactly the
camelCase wire keys its mapper reads (`player_id` under `playerId`).  In
fact `_to_camel` capitalizes *every* underscore-separated word, the first
included, so `to_dict` emits Pascal-case keys (`PlayerId`, `Id`, ...);
re-running the mapper on a serialized `Bonus` fails at its very first
required key with `KeyError("id")` instead of reproducing the entity.
The third conjunct shows the serialized record is reachable from a valid
wire payload.  This contradicts `_to_camel`'s own docstring ("camel
case") and `to_dict`'s declared payload type, whose keys are camelCase. -/
theorem serializer_pascal_case_breaks_roundtrip :
    toCamel "player_id" = "PlayerId" ∧
    toCamel "player_id" ≠ "playerId" ∧
    changeUpdate (changePayloadW (some .null)) = .ok changeRecW ∧
    changeUpdate (changeToDict changeRecW) = .error (.keyError "id") :=
  ⟨by decide, by decide, rfl, rfl⟩

/-- C2 counterexample: the claim says a cache entry stored through one
client is never observable through a different client's cache, and that a
fresh default-constructed client's cache is empty.  `Cache.data` is a
class attribute, so after client `0` stores `42`, a client `1`
constructed afterwards observes that very entry through its own
fresh cache. -/
theorem cache_entry_visible_across_clients :
    sfind
      (cacheGetData
        (cachePut (procInit Nat) (clientNew 0).cache
          (mkKey [PyVal.int 1] [("season", PyVal.int 8)]
            "AioMKClient.get_player") 42)
        (clientNew 1).cache)
      (mkKey [PyVal.int 1] [("season", PyVal.int 8)]
        "AioMKClient.get_player") = some 42 :=
  sfind_sput_self _ _ _

/-- C2 (amended): the default cache's backing dict is the single
class-level `Cache.data` shared by every instance, so (i) it is empty
only at process start (before any client stored anything), (ii) any two
clients observe the same store, and (iii) an entry stored through one
client is observable through every other client's cache. -/
theorem cache_is_shared_class_state (V : Type) (proc : ProcState V)
    (c1 c2 : ClientObj) (k : CacheKey) (v : V) :
    cacheGetData (procInit V) c1.cache = [] ∧
    cacheGetData proc c1.cache = cacheGetData proc c2.cache ∧
    sfind (cacheGetData (cachePut proc c1.cache k v) c2.cache) k = some v :=
  ⟨rfl, rfl, sfind_sput_self _ _ _⟩

/-- C3: starting from a store in which neither method's key is present,
two successive calls to the same facade method with the same positional
arguments and permuted keyword arguments invoke the wrapped operation
(and hence its transport request) exactly once in total, the second call
returns the value stored by the first (the statement is generic in the
stored value, so it covers a stored `None`), and a different method
(distinct `__qualname__`) with the same arguments has a distinct key and
still invokes its own operation. -/
theorem cache_idempotence_and_discrimination
    (V : Type) (s0 : Store V) (args : List PyVal)
    (l1 l2 : List (String × PyVal)) (q1 q2 : String) (r1 r2 r3 : V)
    (hperm : l1.Perm l2)
    (h1 : sfind s0 (mkKey args l1 q1) = Option.none)
    (h2 : sfind s0 (mkKey args l1 q2) = Option.none)
    (hq : q1 ≠ q2) :
    (cachedCall s0 (mkKey args l1 q1) r1).invocations
      + (cachedCall (cachedCall s0 (mkKey args l1 q1) r1).store
          (mkKey args l2 q1) r2).invocations = 1 ∧
    (cachedCall (cachedCall s0 (mkKey args l1 q1) r1).store
      (mkKey args l2 q1) r2).value = r1 ∧
    mkKey args l1 q1 ≠ mkKey args l1 q2 ∧
    (cachedCall (cachedCall s0 (mkKey args l1 q1) r1).store
      (mkKey args l1 q2) r3).invocations = 1 := by
  have hkey : mkKey args l2 q1 = mkKey args l1 q1 :=
    mkKey_perm args l2 l1 q1 hperm.symm
  have hne : mkKey args l1 q2 ≠ mkKey args l1 q1 := by
    intro hh
    exact hq (congrArg CacheKey.qualname hh).symm
  have hfirst : cachedCall s0 (mkKey args l1 q1) r1
      = ⟨r1, sput s0 (mkKey args l1 q1) r1, 1⟩ := by
    simp [cachedCall, h1]
  rw [hfirst, hkey]
  refine ⟨?_, ?_, fun hh => hq (congrArg CacheKey.qualname hh), ?_⟩
  · simp [cachedCall, sfind_sput_self]
  · simp [cachedCall, sfind_sput_self]
  · simp [cachedCall, sfind_sput_ne s0 (mkKey args l1 q1) (mkKey args l1 q2) r1 hne, h2]

/-- C3 witness: the theorem applied to concrete data — same method name,
keyword items `name`/`season` in the two orders, stored result `None`
(negative caching): the second call returns the stored `None`. -/
theorem cache_idempotence_witness :
    (([("name", PyVal.str "azure_mk"), ("season", PyVal.int 8)] :
        List (String × PyVal)).Perm
      [("season", PyVal.int 8), ("name", PyVal.str "azure_mk")]) ∧
    (cachedCall
      (cachedCall ([] : Store (Option Nat))
        (mkKey [] [("name", PyVal.str "azure_mk"), ("season", PyVal.int 8)]
          "AioMKClient.get_player") Option.none).store
      (mkKey [] [("season", PyVal.int 8), ("name", PyVal.str "azure_mk")]
        "AioMKClient.get_player") (some 7)).value = Option.none :=
  ⟨by decide,
    (cache_idempotence_and_discrimination (Option Nat) [] []
      [("name", PyVal.str "azure_mk"), ("season", PyVal.int 8)]
      [("season", PyVal.int 8), ("name", PyVal.str "azure_mk")]
      "AioMKClient.get_player" "AioMKClient.get_leaderboard"
      Option.none (some 7) (some 9) (by decide) rfl rfl (by decide)).2.1⟩

/-- C4: slicing a `LeaderBoard` yields a new `LeaderBoard` whose
`total_players` is exactly the number of entries the slice selects and
whose entries are exactly the selected entries of the source, in source
order (so a 50-entry board sliced `[0:10]` has `total_players = 10` and
the source's first 10 entries). -/
theorem leaderboard_slice_invariant (lb : LBRec) (start? stop? : Option Int) :
    (lbGetSlice lb start? stop?).total_players
      = .int (pySlice lb.data start? stop?).length ∧
    (lbGetSlice lb start? stop?).data = pySlice lb.data start? stop? := by
  constructor
  · rfl
  · show (pySlice lb.data start? stop?).map lbpCopy = _
    have h : lbpCopy = id := funext fun _ => rfl
    rw [h, List.map_id]

/-- C5: the claim says that with `return_exceptions=True` a failed slot's
captured exception is returned as that slot's value and the batch does
not raise.  In fact the result comprehension tests only `is not None`, so
the captured exception object is handed to the entity constructor, whose
first subscript raises `TypeError` — the batch raises instead of
materializing the failure.  The second conjunct shows that without a
failing leg the same batch maps per-slot (entity / `None`) as documented. -/
theorem fetch_many_exception_slot_raises :
    fetchManyRE playerNew [.ok (some playerPayloadW), .error .connectionError]
      = .error .typeError ∧
    fetchManyRE playerNew [.ok (some playerPayloadW), .ok Option.none]
      = .ok [some playerRecW, Option.none] :=
  ⟨rfl, rfl⟩

/-- C6: `get_player` and `get_player_details` called with every
identifying parameter `None` (season alone does not count) return `None`
without raising and issue zero transport requests, for any transport and
any mapper. -/
theorem single_lookup_without_identifier_short_circuits
    (transport : String → List (String × PyVal) → Option JVal)
    (season? : Option Int) (α : Type) (cls : JVal → Except PyErr α) :
    getPlayerRun transport Option.none Option.none Option.none Option.none
      Option.none season? = (.ok Option.none, 0) ∧
    getPlayerDetailsRun cls transport Option.none Option.none season?
      = (.ok Option.none, 0) :=
  ⟨rfl, rfl⟩

/-- C7: every list endpoint maps transport absence (a non-200 response,
i.e. the GET returning the absence marker) to the empty list — never
`None` — for all argument assignments. -/
theorem list_endpoints_absence_maps_to_empty
    (minMmr? maxMmr? season? : Option Int) (after? before? : Option DT)
    (name : String) (isStrike? : Option Bool) (includeDeleted : Bool) :
    getPlayerListRun (fun _ _ => Option.none) minMmr? maxMmr? season?
      = .ok [] ∧
    getTablesRun (fun _ _ => Option.none) after? before? season? = .ok [] ∧
    getTableUnverifiedRun (fun _ _ => Option.none) season? = .ok [] ∧
    getBonusesRun (fun _ _ => Option.none) name season? = .ok [] ∧
    getPenaltiesRun (fun _ _ => Option.none) name isStrike? after?
      includeDeleted season? = .ok [] :=
  ⟨rfl, rfl, rfl, rfl, rfl⟩

/-- C8 counterexample: the claim says an *absent* `deletedOn` key maps to
`None` for `Bonus`/`Penalty` as well, but `_ChangeBase._update` reads
`data["deletedOn"]` with subscripting, so a payload without the key
raises `KeyError` (the payload here carries every other required key). -/
theorem change_absent_deleted_on_raises :
    changeUpdate (changePayloadW Option.none) = .error (.keyError "deletedOn") :=
  rfl

/-- C8 (amended): for `Table.verified_on`/`Table.deleted_on` a null *or
absent* wire key maps to `None` without raising and a present non-null
ISO string is parsed; for `Bonus`/`Penalty` `deleted_on` the `deletedOn`
key must be present — a null value maps to `None`, a non-empty string is
parsed, and an absent key raises `KeyError`. -/
theorem optional_timestamp_null_vs_absent (s : String) (hs : s ≠ "") :
    ((tableUpdate (tablePayloadW Option.none Option.none)).map
      (fun r => (r.verified_on, r.deleted_on))
        = .ok (Option.none, Option.none)) ∧
    ((tableUpdate (tablePayloadW (some .null) (some .null))).map
      (fun r => (r.verified_on, r.deleted_on))
        = .ok (Option.none, Option.none)) ∧
    ((tableUpdate (tablePayloadW (some (.str s)) (some (.str s)))).map
      (fun r => (r.verified_on, r.deleted_on)) = .ok (some ⟨s⟩, some ⟨s⟩)) ∧
    ((changeUpdate (changePayloadW (some .null))).map (fun r => r.deleted_on)
      = .ok Option.none) ∧
    ((changeUpdate (changePayloadW (some (.str s)))).map
      (fun r => r.deleted_on) = .ok (some ⟨s⟩)) ∧
    (changeUpdate (changePayloadW Option.none)
      = .error (.keyError "deletedOn")) := by
  have ht : (JVal.str s).truthy = true := by simp [JVal.truthy, hs]
  refine ⟨rfl, rfl, ?_, rfl, ?_, rfl⟩
  · simp [tableUpdate, tablePayloadW, JVal.getItem, JVal.getOpt, jlookup,
      isoparseJ, ht, JVal.asArr, Except.map, Except.bind, bind, Bind.bind,
      pure, Except.pure, List.mapM, List.mapM.loop]
  · simp [changeUpdate, changePayloadW, JVal.getItem, jlookup, isoparseJ,
      ht, Except.map, Except.bind, bind, Bind.bind, pure, Except.pure]

/-- C8 witness: the amended theorem at a concrete non-empty ISO string. -/
theorem optional_timestamp_null_vs_absent_witness :
    ("2024-05-06T07:08:09" ≠ "") ∧
    ((changeUpdate (changePayloadW (some (.str "2024-05-06T07:08:09")))).map
      (fun r => r.deleted_on) = .ok (some ⟨"2024-05-06T07:08:09"⟩)) :=
  ⟨by decide,
    (optional_timestamp_null_vs_absent "2024-05-06T07:08:09" (by decide)).2.2.2.2.1⟩

/-- C9 counterexample: the claim says a `Search` constructed with both an
mkc id and a friend code serializes to the mkc form only — but the chain
tests *truthiness*, so the (set, integer) mkc id `0` is skipped and the
friend-code form is emitted instead of `"mkc=0"`. -/
theorem search_mkc_zero_skipped :
    searchQuery ⟨.int 0, .none, .str "1234-5678-9012"⟩
      = "switch=1234-5678-9012" ∧
    searchQuery ⟨.int 0, .none, .str "1234-5678-9012"⟩ ≠ "mkc=0" :=
  ⟨rfl, by decide⟩

/-- C9 (amended): the fixed precedence mkc id, then discord id, then
friend code holds among *truthy* values: a truthy mkc id always wins
(in particular over any friend code), a falsy-but-set one (`0`, `""`) is
skipped as if unset, and the friend-code form is the fallback; exactly
one criterion is ever emitted. -/
theorem search_precedence_truthy (s : Search) :
    (s.mkc_id.truthy = true → searchQuery s = "mkc=" ++ s.mkc_id.interp) ∧
    (s.mkc_id.truthy = false → s.discord_id.truthy = true →
      searchQuery s = "discord=" ++ s.discord_id.interp) ∧
    (s.mkc_id.truthy = false → s.discord_id.truthy = false →
      searchQuery s = "switch=" ++ s.switch_fc.interp) := by
  refine ⟨fun h1 => ?_, fun h1 h2 => ?_, fun h1 h2 => ?_⟩
  · unfold searchQuery
    rw [h1]
    simp
  · unfold searchQuery
    rw [h1, h2]
    simp
  · unfold searchQuery
    rw [h1, h2]
    simp

/-- C9 witness: a truthy mkc id together with a set friend code emits the
mkc form. -/
theorem search_precedence_truthy_witness :
    (PyVal.truthy (PyVal.int 9000) = true) ∧
    searchQuery ⟨PyVal.int 9000, PyVal.none, PyVal.str "1234-5678-9012"⟩
      = "mkc=" ++ PyVal.interp (PyVal.int 9000) :=
  ⟨by decide,
    (search_precedence_truthy
      ⟨PyVal.int 9000, PyVal.none, PyVal.str "1234-5678-9012"⟩).1 (by decide)⟩

/-- C10: `LeaderBoard.__eq__` compares exactly the player lists
(element-wise, by each player's own identity-by-`id` equality) and never
consults `total_players`: two boards with element-wise equal lists
compare equal whatever their `total_players`, and two boards with
differing lists compare unequal whatever their `total_players`. -/
theorem leaderboard_eq_ignores_total_players
    (t1 t2 : JVal) (d1 d2 : List LBPlayerRec) :
    lbEqB ⟨t1, d1⟩ ⟨t2, d2⟩ = lbpListEqB d1 d2 :=
  rfl

end AioMK
